import Mathlib

/-!
Verification development for the quinn-backend repository.

The repository is a sequence of snapshots of a small Express backend that
onboards phone callers, verifies their phone via a one-time code, charges a
subscription, and provisions a forwarding proxy number.  This file gives a
shallow embedding of the relevant route handlers as pure Lean functions over
an explicit store (a list of user records keyed by phone, mirroring the SQL
users table with its UNIQUE phone constraint), and proves the specification
claims about them.

Naming of source variants:
  - `normalizePhone` is the strict normalizer of src/server.js (snapshot 1),
    src/unnamed/part_001 (snapshot 2) and src/unnamed/part_004 (snapshot 1):
    the plus-prefixed fallback also requires at least 11 digits.
  - `normalizePhoneLoose` is the normalizer of src/unnamed/part_002 and the
    later snapshots in server.js / part_004: the plus-prefixed fallback has
    no digit-count guard.
-/

/-- The digit characters of a string, in order: JS `phone.replace(/\D/g, "")`. -/
def digitsOf (s : String) : String :=
  ⟨s.data.filter Char.isDigit⟩

/-- JS `s.startsWith(p)`. -/
def jsStartsWith (s p : String) : Bool :=
  p.data.isPrefixOf s.data

/-- Strict phone normalizer, from src/server.js lines 69-79 (also
src/unnamed/part_004 lines 97-115 and src/unnamed/part_001 lines 235-245).
JS throw is modelled as `Except.error` with the thrown message. -/
def normalizePhone (phone : String) : Except String String :=
  if phone = "" then Except.error "Phone number required."
  else
    let digits := digitsOf phone
    if digits.length = 10 then Except.ok ("+1" ++ digits)
    else if digits.length = 11 ∧ jsStartsWith digits "1" = true then
      Except.ok ("+" ++ digits)
    else if jsStartsWith phone "+" = true ∧ 11 ≤ digits.length then
      Except.ok phone
    else Except.error "Invalid phone format."

/-- Loose phone normalizer, from src/unnamed/part_002 lines 99-107 (also the
second snapshots of server.js and part_004): no empty-input guard, and the
plus-prefixed fallback returns the raw input without any digit-count check. -/
def normalizePhoneLoose (phone : String) : Except String String :=
  let digits := digitsOf phone
  if digits.length = 10 then Except.ok ("+1" ++ digits)
  else if digits.length = 11 ∧ jsStartsWith digits "1" = true then
    Except.ok ("+" ++ digits)
  else if jsStartsWith phone "+" = true then Except.ok phone
  else Except.error "Invalid phone format."

/-- A row of the users table in its fullest schema (src/unnamed/part_001
snapshot 2 / src/unnamed/part_002 / src/unnamed/part_004 snapshot 2 CREATE
TABLE).  SQL NULL is modelled as `Option.none`; timestamps are integers
(milliseconds, as in JS Date).  Earlier snapshots use a subset of these
columns; their operations leave the extra fields at their defaults. -/
structure UserRecord where
  name : Option String
  phone : String
  role : String
  status : String
  verified : Bool
  verifiedAt : Option Int
  stripeCustomerId : Option String
  stripeSubscriptionId : Option String
  proxyNumber : Option String
  proxySid : Option String
  forwardingEnabled : Bool
  subscriptionExpiresAt : Option Int
  createdAt : Int
  lastSeen : Option Int
deriving DecidableEq, Repr

/-- The users table: a list of rows.  The UNIQUE constraint on phone is the
hypothesis `phoneCount store p ≤ 1` where needed. -/
abbrev Store := List UserRecord

/-- Number of rows whose phone equals `p`. -/
def phoneCount (store : Store) (p : String) : Nat :=
  (store.filter (fun u => u.phone == p)).length

/-- JS `new Date(v)` applied to a nullable timestamp column: a SQL NULL
arrives in JS as `null`, and `new Date(null)` is the epoch (time 0). -/
def jsDateOf : Option Int → Int
  | none => 0
  | some t => t

/-- The four possible outcomes of the /proxy-forward route
(src/unnamed/part_004 lines 508-541): three terminal spoken responses and
the TwiML Dial of the stored real phone. -/
inductive ForwardDecision where
  | numberNotActive
  | forwardingDisabled
  | subscriptionExpired
  | dial (phone : String)
deriving DecidableEq, Repr

/-- `SELECT ... FROM users WHERE proxy_number = $1`, first row
(src/unnamed/part_004 lines 512-515 with `user.rows[0]`). -/
def findByProxy (store : Store) (inbound : String) : Option UserRecord :=
  store.find? (fun u => u.proxyNumber == some inbound)

/-- The /proxy-forward decision, src/unnamed/part_004 lines 508-541:
no matching row -> "This number is not active"; `!record.forwarding_enabled`
-> "Forwarding disabled"; `new Date(record.subscription_expires_at) <
new Date()` -> "Subscription expired"; otherwise Dial `record.phone`. -/
def decideForward (store : Store) (inbound : String) (now : Int) : ForwardDecision :=
  match findByProxy store inbound with
  | none => ForwardDecision.numberNotActive
  | some r =>
    if r.forwardingEnabled = false then ForwardDecision.forwardingDisabled
    else if jsDateOf r.subscriptionExpiresAt < now then ForwardDecision.subscriptionExpired
    else ForwardDecision.dial r.phone

/-- A fresh row as created by an INSERT that lists only some columns: the
rest take the CREATE TABLE defaults (role caller, status new, verified
false, forwarding_enabled true, nullable columns NULL). -/
def defaultRow (phone : String) (now : Int) : UserRecord :=
  { name := none, phone := phone, role := "caller", status := "new",
    verified := false, verifiedAt := none, stripeCustomerId := none,
    stripeSubscriptionId := none, proxyNumber := none, proxySid := none,
    forwardingEnabled := true, subscriptionExpiresAt := none,
    createdAt := now, lastSeen := none }

/-- The update applied to the matching row by the start-verification upsert
of src/server.js lines 239-247 (DO UPDATE SET name = EXCLUDED.name,
status = pending_verification, verified = false). -/
def pendingUpdate (name : Option String) (u : UserRecord) : UserRecord :=
  { u with name := name, status := "pending_verification", verified := false }

/-- The /start-verification upsert of src/server.js lines 239-247:
INSERT INTO users (name, phone, role, status, verified) VALUES
(name, phone, caller, pending_verification, false) ON CONFLICT (phone) DO
UPDATE SET name, status = pending_verification, verified = false.
Here `p` is the canonical phone and the `name` argument models name-or-null. -/
def startVerificationUpsert (store : Store) (name : Option String) (p : String)
    (now : Int) : Store :=
  if store.any (fun u => u.phone == p) then
    store.map (fun u => if u.phone == p then pendingUpdate name u else u)
  else
    store ++ [{ defaultRow p now with
                  name := name, role := "caller",
                  status := "pending_verification", verified := false }]

/-- The /start-verification upsert of src/unnamed/part_004 lines 152-160:
identical except that the inserted and updated status is the string new
(VALUES (name, phone, caller, new, false) then DO UPDATE SET name,
status = new, verified = false). -/
def startVerificationUpsertP4 (store : Store) (name : Option String) (p : String)
    (now : Int) : Store :=
  if store.any (fun u => u.phone == p) then
    store.map (fun u =>
      if u.phone == p then { u with name := name, status := "new", verified := false }
      else u)
  else
    store ++ [{ defaultRow p now with
                  name := name, role := "caller",
                  status := "new", verified := false }]

/-- Outcome of the /verify route as seen by the caller. -/
inductive VerifyResult where
  | approved
  | codeRejected
deriving DecidableEq, Repr

/-- The row update of src/server.js lines 295-303: SET verified = true,
verified_at = NOW(), status = verified, role = customer,
last_seen = NOW() WHERE the phone matches. -/
def approveUpdate (p : String) (now : Int) (u : UserRecord) : UserRecord :=
  if u.phone == p then
    { u with verified := true, verifiedAt := some now, status := "verified",
             role := "customer", lastSeen := some now }
  else u

/-- The /verify route of src/server.js lines 270-315, after phone
normalization: the provider (Twilio Verify) reports `providerStatus`; on
`approved` the UPDATE above runs and the route answers 200 approved, on
anything else nothing is written and the route answers 400
(invalid-or-expired, the CodeRejected failure). -/
def checkVerification (store : Store) (p : String) (providerStatus : String)
    (now : Int) : Store × VerifyResult :=
  if providerStatus == "approved" then
    (store.map (approveUpdate p now), VerifyResult.approved)
  else
    (store, VerifyResult.codeRejected)

/-- External side-effecting provider calls the handlers can make. -/
inductive ExtCall where
  | listAvailableNumbers
  | purchaseNumber (n : String)
  | sendMessage (dest : String)
  | createCheckoutSession (phone : String)
deriving DecidableEq, Repr

/-- Result of a Twilio `incomingPhoneNumbers.create` purchase. -/
structure Purchased where
  phoneNumber : String
  sid : String
deriving DecidableEq, Repr

/-- A checkout.session.completed event as consumed by the webhook handlers:
its type, the correlation phone from `session.metadata.phone`, and the
customer / subscription references. -/
structure StripeEvent where
  type : String
  metadataPhone : Option String
  customer : Option String
  subscription : Option String
deriving DecidableEq, Repr

/-- Thirty days in milliseconds: `expiration.setDate(expiration.getDate() + 30)`
(src/unnamed/part_002 lines 182-183). -/
def thirtyDaysMs : Int := 2592000000

/-- The provisioning UPDATE of src/unnamed/part_002 lines 185-208:
SET role = subscriber, status = active, stripe_customer_id,
stripe_subscription_id, proxy_number, proxy_sid, subscription_expires_at,
last_seen = NOW() WHERE the phone matches. -/
def provisionUpdate (ev : StripeEvent) (purchased : Purchased) (expiry now : Int)
    (p : String) (u : UserRecord) : UserRecord :=
  if u.phone == p then
    { u with role := "subscriber", status := "active",
             stripeCustomerId := ev.customer,
             stripeSubscriptionId := ev.subscription,
             proxyNumber := some purchased.phoneNumber,
             proxySid := some purchased.sid,
             subscriptionExpiresAt := some expiry,
             lastSeen := some now }
  else u

/-- The try-block of the src/unnamed/part_002 webhook (lines 150-234):
normalize the metadata phone, list one available number, purchase it, run
the provisioning UPDATE (throwing if it matched no row), send the
activation message.  A throw anywhere is caught by the handler; the pair
returned is the store and the provider calls actually made up to that
point.  `purchase` is the outcome of the Twilio purchase call. -/
def runProvisioning (ev : StripeEvent) (rawPhone : String)
    (available : List String) (purchase : String → Except String Purchased)
    (store : Store) (now : Int) : Store × List ExtCall :=
  match normalizePhoneLoose rawPhone with
  | Except.error _ => (store, [])
  | Except.ok p =>
    match available with
    | [] => (store, [ExtCall.listAvailableNumbers])
    | n :: _ =>
      match purchase n with
      | Except.error _ => (store, [ExtCall.listAvailableNumbers, ExtCall.purchaseNumber n])
      | Except.ok purchased =>
        let store' := store.map (provisionUpdate ev purchased (now + thirtyDaysMs) now p)
        if store.any (fun u => u.phone == p) then
          (store', [ExtCall.listAvailableNumbers, ExtCall.purchaseNumber n,
                    ExtCall.sendMessage p])
        else
          (store', [ExtCall.listAvailableNumbers, ExtCall.purchaseNumber n])

/-- HTTP answer of the /stripe-webhook route. -/
inductive WebhookResponse where
  | sigError (msg : String)
  | received
deriving DecidableEq, Repr

/-- The /stripe-webhook route of src/unnamed/part_002 lines 125-238.
`constructResult` is the outcome of `stripe.webhooks.constructEvent(body,
signature, secret)`: `Except.error` when the signature does not verify.
On signature failure the route answers 400 immediately; otherwise the
checkout.session.completed provisioning runs inside a try/catch and the
route always answers `{received: true}`. -/
def stripeWebhook (constructResult : Except String StripeEvent)
    (available : List String) (purchase : String → Except String Purchased)
    (store : Store) (now : Int) : Store × List ExtCall × WebhookResponse :=
  match constructResult with
  | Except.error msg => (store, [], WebhookResponse.sigError msg)
  | Except.ok ev =>
    if ev.type == "checkout.session.completed" then
      match ev.metadataPhone with
      | none => (store, [], WebhookResponse.received)
      | some raw =>
        let r := runProvisioning ev raw available purchase store now
        (r.1, r.2, WebhookResponse.received)
    else (store, [], WebhookResponse.received)

/-- Outcome of the /create-checkout-session route. -/
inductive CheckoutResult where
  | invalidPhone (msg : String)
  | notVerified
  | linkSent
deriving DecidableEq, Repr

/-- The /create-checkout-session route of src/unnamed/part_001 lines
455-498: require phone, normalize it, `SELECT verified FROM users WHERE
phone = $1`; if no row or not verified answer 400 "User must be verified
first." with no external call; otherwise create the Stripe checkout
session and text the link. -/
def createCheckoutSession (store : Store) (rawPhone : String) :
    CheckoutResult × List ExtCall :=
  if rawPhone = "" then (CheckoutResult.invalidPhone "Phone required.", [])
  else
    match normalizePhone rawPhone with
    | Except.error e => (CheckoutResult.invalidPhone e, [])
    | Except.ok p =>
      match store.find? (fun u => u.phone == p) with
      | none => (CheckoutResult.notVerified, [])
      | some u =>
        if u.verified then
          (CheckoutResult.linkSent,
           [ExtCall.createCheckoutSession p, ExtCall.sendMessage p])
        else (CheckoutResult.notVerified, [])

/-- The `UPDATE users SET last_seen = NOW() WHERE phone = $1` issued by
/voice-webhook and /check-user-status for a verified caller
(src/server.js lines 152-155 and 199-202). -/
def touchLastSeen (store : Store) (p : String) (now : Int) : Store :=
  store.map (fun u => if u.phone == p then { u with lastSeen := some now } else u)

/-- A row of the users table of the earliest code-based snapshot,
src/unnamed/part_000 lines 43-53: `(id, name, phone, verified,
verification_code, code_expires_at, created_at)`.  This schema has no
verified_at, status or role column. -/
structure P0User where
  name : Option String
  phone : String
  verified : Bool
  verificationCode : Option String
  codeExpiresAt : Option Int
  createdAt : Int
deriving DecidableEq, Repr

/-- The /start-verification upsert of src/unnamed/part_000 lines 129-138:
insert or overwrite name, verification_code, code_expires_at and force
verified = false. -/
def p0StartUpsert (store : List P0User) (name : Option String)
    (phone code : String) (expires now : Int) : List P0User :=
  if store.any (fun u => u.phone == phone) then
    store.map (fun u =>
      if u.phone == phone then
        { u with name := name, verificationCode := some code,
                 codeExpiresAt := some expires, verified := false }
      else u)
  else
    store ++ [{ name := name, phone := phone, verified := false,
                verificationCode := some code, codeExpiresAt := some expires,
                createdAt := now }]

/-- Outcome of the part_000 /verify route. -/
inductive P0VerifyResult where
  | userNotFound
  | invalidCode
  | codeExpired
  | success
deriving DecidableEq, Repr

/-- The /verify route of src/unnamed/part_000 lines 164-205: look the row
up, reject an unknown phone, a mismatched code, an expired code; otherwise
run `UPDATE users SET verified = true WHERE phone = $1` - and nothing
else: no timestamp or lifecycle column is written. -/
def p0Verify (store : List P0User) (phone code : String) (now : Int) :
    List P0User × P0VerifyResult :=
  match store.find? (fun u => u.phone == phone) with
  | none => (store, P0VerifyResult.userNotFound)
  | some u =>
    if u.verificationCode ≠ some code then (store, P0VerifyResult.invalidCode)
    else if jsDateOf u.codeExpiresAt < now then (store, P0VerifyResult.codeExpired)
    else
      (store.map (fun v => if v.phone == phone then { v with verified := true } else v),
       P0VerifyResult.success)

/-- Reading of a part_000 row in the vocabulary of the full schema: the
columns the part_000 table lacks hold their CREATE TABLE defaults of the
later schema (verified_at NULL, status new, role caller). -/
def p0ToUser (u : P0User) : UserRecord :=
  { name := u.name, phone := u.phone, role := "caller", status := "new",
    verified := u.verified, verifiedAt := none, stripeCustomerId := none,
    stripeSubscriptionId := none, proxyNumber := none, proxySid := none,
    forwardingEnabled := true, subscriptionExpiresAt := none,
    createdAt := u.createdAt, lastSeen := none }

/-- The per-row invariant of spec section 3: `verified = true` implies
`verifiedAt` is set and `status` is verified or active. -/
def recordInvariant (u : UserRecord) : Prop :=
  u.verified = true → u.verifiedAt ≠ none ∧ (u.status = "verified" ∨ u.status = "active")

instance (u : UserRecord) : Decidable (recordInvariant u) := by
  unfold recordInvariant; infer_instance

/-- The invariant over a whole store. -/
def storeInvariant (s : Store) : Prop :=
  ∀ u ∈ s, recordInvariant u

instance (s : Store) : Decidable (storeInvariant s) := by
  unfold storeInvariant; infer_instance

/-- A sequence of /start-verification calls for one canonical phone, each
with its own name argument and clock value, applied in order (the spec
quantifies over such sequences). -/
def runStartSequence (store : Store) (p : String)
    (calls : List (Option String × Int)) : Store :=
  calls.foldl (fun acc c => startVerificationUpsert acc c.1 p c.2) store

/-- The same call sequence against the part_004 variant of the upsert. -/
def runStartSequenceP4 (store : Store) (p : String)
    (calls : List (Option String × Int)) : Store :=
  calls.foldl (fun acc c => startVerificationUpsertP4 acc c.1 p c.2) store

/-- A provisioned row used to instantiate the forward-decision theorems:
the example of spec section 8, a record with proxy number +15551230000,
forwarding disabled, an unexpired subscription and real phone
+15559999999. -/
def exampleProxyRow : UserRecord :=
  { defaultRow "+15559999999" 0 with
      proxyNumber := some "+15551230000", forwardingEnabled := false,
      subscriptionExpiresAt := some 9999999 }

/-- A provisioned row with forwarding enabled but a NULL
subscription_expires_at column. -/
def nullExpiryProxyRow : UserRecord :=
  { defaultRow "+15559999998" 0 with
      proxyNumber := some "+15551230001", forwardingEnabled := true,
      subscriptionExpiresAt := none }

/-- A part_000 row as created by its /start-verification for Alice, with a
pending code 123456 expiring at time 1000. -/
def p0Row : P0User :=
  { name := some "Alice", phone := "+15551234567", verified := false,
    verificationCode := some "123456", codeExpiresAt := some 1000,
    createdAt := 0 }

/-- Claim C5: the normalizer maps a raw input with exactly 10 digit
characters to `+1` plus those digits, a raw input with 11 digit characters
starting with 1 to `+` plus those digits, and it is idempotent on an
already canonical `+1` plus ten digits input. -/
theorem normalizePhone_canonical_forms (raw d : String) :
    ((digitsOf raw).length = 10 →
      normalizePhone raw = Except.ok ("+1" ++ digitsOf raw)) ∧
    ((digitsOf raw).length = 11 → jsStartsWith (digitsOf raw) "1" = true →
      normalizePhone raw = Except.ok ("+" ++ digitsOf raw)) ∧
    (d.length = 10 → (∀ c ∈ d.data, c.isDigit) →
      normalizePhone ("+1" ++ d) = Except.ok ("+1" ++ d)) := by
  refine ⟨fun h => ?_, fun h hs => ?_, fun hlen hdig => ?_⟩
  · have hne : raw ≠ "" := by
      intro he; rw [he] at h; exact absurd h (by decide)
    simp only [normalizePhone]
    rw [if_neg hne, if_pos h]
  · have hne : raw ≠ "" := by
      intro he; rw [he] at h; exact absurd h (by decide)
    simp only [normalizePhone]
    rw [if_neg hne, if_neg (by rw [h]; decide), if_pos ⟨h, hs⟩]
  · have hdata : ("+1" ++ d).data = '+' :: '1' :: d.data := by
      rw [String.data_append]; rfl
    have hd : digitsOf ("+1" ++ d) = ⟨'1' :: d.data⟩ := by
      show (⟨("+1" ++ d).data.filter Char.isDigit⟩ : String) = ⟨'1' :: d.data⟩
      rw [hdata]
      show (⟨List.filter Char.isDigit ('+' :: '1' :: d.data)⟩ : String) = _
      rw [List.filter_cons_of_neg (by decide), List.filter_cons_of_pos (by decide),
        List.filter_eq_self.mpr hdig]
    have hdlen : d.data.length = 10 := hlen
    have hlen11 : (digitsOf ("+1" ++ d)).length = 11 := by
      rw [hd]
      show ('1' :: d.data).length = 11
      rw [List.length_cons, hdlen]
    have hpre : jsStartsWith (digitsOf ("+1" ++ d)) "1" = true := by
      rw [hd]
      show List.isPrefixOf "1".data ('1' :: d.data) = true
      simp [List.isPrefixOf]
    have hne : ("+1" ++ d) ≠ "" := by
      intro he
      rw [String.ext_iff, hdata] at he
      exact List.noConfusion he
    simp only [normalizePhone]
    rw [if_neg hne, if_neg (by rw [hlen11]; decide), if_pos ⟨hlen11, hpre⟩, hd]
    rw [Except.ok.injEq, String.ext_iff, String.data_append, String.data_append]
    rfl

/-- Witness for C5 at the three concrete inputs of spec section 8. -/
theorem normalizePhone_canonical_forms_witness :
    normalizePhone "555-123-4567" = Except.ok "+15551234567" ∧
    normalizePhone "1-555-123-4567" = Except.ok "+15551234567" ∧
    normalizePhone "+15551234567" = Except.ok "+15551234567" :=
  ⟨((normalizePhone_canonical_forms "555-123-4567" "5551234567").1
      (by rfl)).trans (by rfl),
   ((normalizePhone_canonical_forms "1-555-123-4567" "5551234567").2.1
      (by rfl) (by rfl)).trans (by rfl),
   ((normalizePhone_canonical_forms "+15551234567" "5551234567").2.2
      (by rfl) (by decide)).trans (by rfl)⟩

/-- Counterexample for C6: the part_002 normalizer returns the
plus-prefixed input `+123` unchanged even though it has only 3 digit
characters, where the claim requires the InvalidPhoneFormat failure. -/
theorem normalizePhoneLoose_plus_counterexample :
    normalizePhoneLoose "+123" = Except.ok "+123" ∧
    (digitsOf "+123").length = 3 ∧
    jsStartsWith "+123" "+" = true ∧
    (Except.ok "+123" : Except String String) ≠
      Except.error "Invalid phone format." :=
  ⟨rfl, rfl, rfl, fun h => Except.noConfusion h⟩

/-- Claim C6 as amended: for the strict normalizer of src/server.js, every
nonempty raw input whose digits are not exactly 10 long, are not an
11-digit string starting with 1, and which either does not start with `+`
or has fewer than 11 digits, fails with InvalidPhoneFormat.  (The empty
input fails earlier with the required-field error, and the loose part_002
variant instead returns any plus-prefixed input unchanged.) -/
theorem normalizePhone_invalid_inputs (raw : String) (hne : raw ≠ "")
    (h10 : (digitsOf raw).length ≠ 10)
    (h11 : ¬ ((digitsOf raw).length = 11 ∧ jsStartsWith (digitsOf raw) "1" = true))
    (hplus : jsStartsWith raw "+" = false ∨ (digitsOf raw).length < 11) :
    normalizePhone raw = Except.error "Invalid phone format." := by
  simp only [normalizePhone]
  rw [if_neg hne, if_neg h10, if_neg h11, if_neg ?_]
  rcases hplus with hp | hp
  · intro hc; rw [hp] at hc; exact Bool.noConfusion hc.1
  · intro hc; omega

/-- Witness for C6 on the concrete input abc. -/
theorem normalizePhone_invalid_inputs_witness :
    normalizePhone "abc" = Except.error "Invalid phone format." :=
  normalizePhone_invalid_inputs "abc" (by decide) (by decide) (by decide)
    (Or.inl (by rfl))

/-- Claim C1: for every store and inbound proxy number the /proxy-forward
decision is exactly one of four outcomes, evaluated in priority order:
unknown proxy number answers number-not-active; a found record with
forwarding disabled answers forwarding-disabled; then an expiry before now
(per JS Date coercion) answers subscription-expired; otherwise the call is
forwarded (Dial) to the real stored phone. -/
theorem decideForward_priority_order (store : Store) (inbound : String) (now : Int) :
    (findByProxy store inbound = none →
      decideForward store inbound now = ForwardDecision.numberNotActive) ∧
    (∀ r, findByProxy store inbound = some r →
      (r.forwardingEnabled = false →
        decideForward store inbound now = ForwardDecision.forwardingDisabled) ∧
      (r.forwardingEnabled = true → jsDateOf r.subscriptionExpiresAt < now →
        decideForward store inbound now = ForwardDecision.subscriptionExpired) ∧
      (r.forwardingEnabled = true → ¬ jsDateOf r.subscriptionExpiresAt < now →
        decideForward store inbound now = ForwardDecision.dial r.phone)) := by
  constructor
  · intro h
    simp [decideForward, h]
  · intro r hr
    refine ⟨fun hf => ?_, fun hf hlt => ?_, fun hf hlt => ?_⟩
    · simp [decideForward, hr, hf]
    · simp [decideForward, hr, hf, hlt]
    · simp [decideForward, hr, hf, hlt]

/-- Witness for C1: on the spec section 8 example record the decision is
forwarding-disabled even though the subscription is unexpired. -/
theorem decideForward_priority_order_witness :
    decideForward [exampleProxyRow] "+15551230000" 1000 =
      ForwardDecision.forwardingDisabled :=
  ((decideForward_priority_order [exampleProxyRow] "+15551230000" 1000).2
    exampleProxyRow (by rfl)).1 (by rfl)

/-- Claim C10: a record matched by proxy number with forwarding enabled but
a NULL subscription_expires_at is answered subscription-expired, because
`new Date(null)` is the epoch, which is before any positive now. -/
theorem decideForward_missing_expiry (store : Store) (inbound : String) (now : Int)
    (r : UserRecord) (hr : findByProxy store inbound = some r)
    (hf : r.forwardingEnabled = true) (he : r.subscriptionExpiresAt = none)
    (hnow : 0 < now) :
    decideForward store inbound now = ForwardDecision.subscriptionExpired := by
  simp [decideForward, hr, hf, he, jsDateOf, hnow]

/-- Witness for C10 on a concrete record with a NULL expiry. -/
theorem decideForward_missing_expiry_witness :
    decideForward [nullExpiryProxyRow] "+15551230001" 1000 =
      ForwardDecision.subscriptionExpired :=
  decideForward_missing_expiry [nullExpiryProxyRow] "+15551230001" 1000
    nullExpiryProxyRow (by rfl) (by rfl) (by rfl) (by decide)

/-- Claim C3: when `stripe.webhooks.constructEvent` rejects the signature
the webhook answers 400 with the error message and nothing else happens:
the store is untouched and no provider call is made.  The signature check
is the first thing the handler does, so this holds for every store, every
provider behaviour and every event content. -/
theorem stripeWebhook_invalid_signature (msg : String) (available : List String)
    (purchase : String → Except String Purchased) (store : Store) (now : Int) :
    stripeWebhook (Except.error msg) available purchase store now =
      (store, [], WebhookResponse.sigError msg) := rfl

/-- Claim C4: once the signature verifies, the webhook always answers the
success acknowledgment `{received: true}`, whatever the event type or
metadata and whatever happens downstream (no available numbers, a failed
purchase, a missing user row): every failure path is inside the
try/catch. -/
theorem stripeWebhook_valid_signature_acks (ev : StripeEvent) (available : List String)
    (purchase : String → Except String Purchased) (store : Store) (now : Int) :
    (stripeWebhook (Except.ok ev) available purchase store now).2.2 =
      WebhookResponse.received := by
  cases hmp : ev.metadataPhone <;>
    by_cases ht : (ev.type == "checkout.session.completed") = true <;>
      simp [stripeWebhook, hmp, ht]

/-- Helper: phoneCount as a countP. -/
theorem phoneCount_eq_countP (s : Store) (p : String) :
    phoneCount s p = s.countP (fun u => u.phone == p) :=
  (List.countP_eq_length_filter _ _).symm

/-- Helper: a row update that never changes the phone column leaves the
per-phone row count unchanged. -/
theorem phoneCount_map_of_phone_eq (s : Store) (p : String)
    (f : UserRecord → UserRecord) (hf : ∀ u, (f u).phone = u.phone) :
    phoneCount (s.map f) p = phoneCount s p := by
  rw [phoneCount_eq_countP, phoneCount_eq_countP, List.countP_map]
  exact List.countP_congr fun u _ => by simp [Function.comp, hf u]

/-- Helper: the server.js start-verification upsert leaves exactly one row
for the phone, given the UNIQUE constraint on the input store. -/
theorem phoneCount_upsert (s : Store) (n : Option String) (p : String) (now : Int)
    (h : phoneCount s p ≤ 1) :
    phoneCount (startVerificationUpsert s n p now) p = 1 := by
  unfold startVerificationUpsert
  by_cases ha : s.any (fun u => u.phone == p) = true
  · rw [if_pos ha, phoneCount_map_of_phone_eq s p _
      (fun u => by by_cases hu : (u.phone == p) = true <;> simp [hu, pendingUpdate])]
    have hpos : 0 < phoneCount s p := by
      rw [phoneCount_eq_countP, List.countP_pos_iff]
      exact List.any_eq_true.mp ha
    omega
  · rw [if_neg ha]
    have hz : s.countP (fun u => u.phone == p) = 0 := by
      rw [List.countP_eq_zero]
      intro a hmem hap
      exact ha (List.any_eq_true.mpr ⟨a, hmem, hap⟩)
    rw [phoneCount_eq_countP, List.countP_append, hz]
    simp [defaultRow]

/-- Helper: every row for the phone after the server.js upsert is pending
and unverified. -/
theorem upsert_fields (s : Store) (n : Option String) (p : String) (now : Int) :
    ∀ u ∈ startVerificationUpsert s n p now, u.phone = p →
      u.status = "pending_verification" ∧ u.verified = false := by
  intro u hu hp
  unfold startVerificationUpsert at hu
  by_cases ha : s.any (fun v => v.phone == p) = true
  · rw [if_pos ha] at hu
    rcases List.mem_map.mp hu with ⟨v, hv, he⟩
    by_cases hvp : (v.phone == p) = true
    · rw [if_pos hvp] at he
      rw [← he]
      exact ⟨rfl, rfl⟩
    · rw [if_neg hvp] at he
      rw [← he] at hp
      exact absurd (by simp [hp]) hvp
  · rw [if_neg ha] at hu
    rcases List.mem_append.mp hu with hus | hunew
    · exact absurd (List.any_eq_true.mpr ⟨u, hus, by simp [hp]⟩) ha
    · rw [List.mem_singleton.mp hunew]
      exact ⟨rfl, rfl⟩

/-- Helper: the part_004 start-verification upsert leaves exactly one row
for the phone. -/
theorem phoneCount_upsertP4 (s : Store) (n : Option String) (p : String) (now : Int)
    (h : phoneCount s p ≤ 1) :
    phoneCount (startVerificationUpsertP4 s n p now) p = 1 := by
  unfold startVerificationUpsertP4
  by_cases ha : s.any (fun u => u.phone == p) = true
  · rw [if_pos ha, phoneCount_map_of_phone_eq s p _
      (fun u => by by_cases hu : (u.phone == p) = true <;> simp [hu])]
    have hpos : 0 < phoneCount s p := by
      rw [phoneCount_eq_countP, List.countP_pos_iff]
      exact List.any_eq_true.mp ha
    omega
  · rw [if_neg ha]
    have hz : s.countP (fun u => u.phone == p) = 0 := by
      rw [List.countP_eq_zero]
      intro a hmem hap
      exact ha (List.any_eq_true.mpr ⟨a, hmem, hap⟩)
    rw [phoneCount_eq_countP, List.countP_append, hz]
    simp [defaultRow]

/-- Helper: every row for the phone after the part_004 upsert has status
new and is unverified. -/
theorem upsertP4_fields (s : Store) (n : Option String) (p : String) (now : Int) :
    ∀ u ∈ startVerificationUpsertP4 s n p now, u.phone = p →
      u.status = "new" ∧ u.verified = false := by
  intro u hu hp
  unfold startVerificationUpsertP4 at hu
  by_cases ha : s.any (fun v => v.phone == p) = true
  · rw [if_pos ha] at hu
    rcases List.mem_map.mp hu with ⟨v, hv, he⟩
    by_cases hvp : (v.phone == p) = true
    · rw [if_pos hvp] at he
      rw [← he]
      exact ⟨rfl, rfl⟩
    · rw [if_neg hvp] at he
      rw [← he] at hp
      exact absurd (by simp [hp]) hvp
  · rw [if_neg ha] at hu
    rcases List.mem_append.mp hu with hus | hunew
    · exact absurd (List.any_eq_true.mpr ⟨u, hus, by simp [hp]⟩) ha
    · rw [List.mem_singleton.mp hunew]
      exact ⟨rfl, rfl⟩

/-- Helper: unfolding one call of the sequence harness. -/
theorem runStartSequence_cons (store : Store) (p : String) (c : Option String × Int)
    (cs : List (Option String × Int)) :
    runStartSequence store p (c :: cs) =
      runStartSequence (startVerificationUpsert store c.1 p c.2) p cs := rfl

/-- Helper: unfolding one call of the part_004 sequence harness. -/
theorem runStartSequenceP4_cons (store : Store) (p : String) (c : Option String × Int)
    (cs : List (Option String × Int)) :
    runStartSequenceP4 store p (c :: cs) =
      runStartSequenceP4 (startVerificationUpsertP4 store c.1 p c.2) p cs := rfl

/-- Helper: any nonempty sequence of server.js start-verification calls
leaves exactly one pending unverified row for the phone. -/
theorem runStartSequence_spec (store : Store) (p : String)
    (calls : List (Option String × Int)) (hne : calls ≠ [])
    (h : phoneCount store p ≤ 1) :
    phoneCount (runStartSequence store p calls) p = 1 ∧
    ∀ u ∈ runStartSequence store p calls, u.phone = p →
      u.status = "pending_verification" ∧ u.verified = false := by
  induction calls generalizing store with
  | nil => exact absurd rfl hne
  | cons c cs ih =>
    rw [runStartSequence_cons]
    cases cs with
    | nil =>
      exact ⟨phoneCount_upsert store c.1 p c.2 h,
        upsert_fields store c.1 p c.2⟩
    | cons c2 cs2 =>
      exact ih _ (List.cons_ne_nil c2 cs2)
        (le_of_eq (phoneCount_upsert store c.1 p c.2 h))

/-- Helper: the same for the part_004 variant, with status new. -/
theorem runStartSequenceP4_spec (store : Store) (p : String)
    (calls : List (Option String × Int)) (hne : calls ≠ [])
    (h : phoneCount store p ≤ 1) :
    phoneCount (runStartSequenceP4 store p calls) p = 1 ∧
    ∀ u ∈ runStartSequenceP4 store p calls, u.phone = p →
      u.status = "new" ∧ u.verified = false := by
  induction calls generalizing store with
  | nil => exact absurd rfl hne
  | cons c cs ih =>
    rw [runStartSequenceP4_cons]
    cases cs with
    | nil =>
      exact ⟨phoneCount_upsertP4 store c.1 p c.2 h,
        upsertP4_fields store c.1 p c.2⟩
    | cons c2 cs2 =>
      exact ih _ (List.cons_ne_nil c2 cs2)
        (le_of_eq (phoneCount_upsertP4 store c.1 p c.2 h))

/-- Counterexample for C2: the part_004 start-verification upsert (cited
by the claim) creates the record with status new, not
pending_verification. -/
theorem startVerification_p4_status_new :
    (startVerificationUpsertP4 [] (some "Alice") "+15551234567" 0).map
        (fun u => (u.phone, u.status, u.verified)) =
      [("+15551234567", "new", false)] ∧
    ("new" : String) ≠ "pending_verification" :=
  ⟨rfl, by decide⟩

/-- Claim C2 as amended: on a store satisfying the UNIQUE phone
constraint, any nonempty sequence of StartVerification calls for one
canonical phone leaves exactly one record for that phone, always with
verified = false; its status is pending_verification under the server.js
upsert, while the part_004 snapshot sets status new instead. -/
theorem startVerification_unique_reset (store : Store) (p : String)
    (calls : List (Option String × Int)) (hne : calls ≠ [])
    (h : phoneCount store p ≤ 1) :
    (phoneCount (runStartSequence store p calls) p = 1 ∧
      ∀ u ∈ runStartSequence store p calls, u.phone = p →
        u.status = "pending_verification" ∧ u.verified = false) ∧
    (phoneCount (runStartSequenceP4 store p calls) p = 1 ∧
      ∀ u ∈ runStartSequenceP4 store p calls, u.phone = p →
        u.status = "new" ∧ u.verified = false) :=
  ⟨runStartSequence_spec store p calls hne h,
   runStartSequenceP4_spec store p calls hne h⟩

/-- Witness for C2: two consecutive calls for one phone on an empty store
leave exactly one row. -/
theorem startVerification_unique_reset_witness :
    phoneCount
      (runStartSequence [] "+15551234567" [(some "Alice", 0), (none, 5)])
      "+15551234567" = 1 :=
  ((startVerification_unique_reset [] "+15551234567"
    [(some "Alice", 0), (none, 5)] (by simp) (by decide)).1).1

/-- Claim C7: for a stored record, a provider answer of approved makes the
/verify route set verified, verifiedAt and status verified on it and
answer success; any other provider answer leaves the whole store untouched
and answers the CodeRejected failure. -/
theorem checkVerification_approved_or_rejected (store : Store) (p : String)
    (providerStatus : String) (now : Int) (u : UserRecord)
    (hu : u ∈ store) (hp : u.phone = p) :
    (providerStatus = "approved" →
      (checkVerification store p providerStatus now).2 = VerifyResult.approved ∧
      approveUpdate p now u ∈ (checkVerification store p providerStatus now).1 ∧
      (approveUpdate p now u).verified = true ∧
      (approveUpdate p now u).verifiedAt = some now ∧
      (approveUpdate p now u).status = "verified") ∧
    (providerStatus ≠ "approved" →
      (checkVerification store p providerStatus now).1 = store ∧
      (checkVerification store p providerStatus now).2 = VerifyResult.codeRejected) := by
  constructor
  · intro h
    subst h
    refine ⟨by simp [checkVerification], ?_, ?_, ?_, ?_⟩
    · simp only [checkVerification, beq_self_eq_true, if_true]
      exact List.mem_map_of_mem _ hu
    · simp [approveUpdate, hp]
    · simp [approveUpdate, hp]
    · simp [approveUpdate, hp]
  · intro h
    have hb : (providerStatus == "approved") = false := by simp [h]
    constructor <;> simp [checkVerification, hb]

/-- Witness for C7: an approved code on a one-row store answers success. -/
theorem checkVerification_approved_or_rejected_witness :
    (checkVerification [defaultRow "+15551234567" 0] "+15551234567" "approved" 7).2 =
      VerifyResult.approved :=
  ((checkVerification_approved_or_rejected [defaultRow "+15551234567" 0]
    "+15551234567" "approved" 7 (defaultRow "+15551234567" 0)
    (List.mem_singleton.mpr rfl) rfl).1 rfl).1

/-- Claim C8: with a phone that normalizes, /create-checkout-session on an
absent or unverified record fails NotVerified and makes no external call;
only a verified record proceeds to the session-create and message calls. -/
theorem createCheckoutSession_requires_verified (store : Store) (raw p : String)
    (hnorm : normalizePhone raw = Except.ok p) :
    (store.find? (fun v => v.phone == p) = none →
      createCheckoutSession store raw = (CheckoutResult.notVerified, [])) ∧
    (∀ u, store.find? (fun v => v.phone == p) = some u → u.verified = false →
      createCheckoutSession store raw = (CheckoutResult.notVerified, [])) ∧
    (∀ u, store.find? (fun v => v.phone == p) = some u → u.verified = true →
      createCheckoutSession store raw =
        (CheckoutResult.linkSent,
         [ExtCall.createCheckoutSession p, ExtCall.sendMessage p])) := by
  have hne : raw ≠ "" := by
    intro he
    rw [he] at hnorm
    exact absurd hnorm (by simp [normalizePhone])
  refine ⟨fun hf => ?_, fun u hf hv => ?_, fun u hf hv => ?_⟩
  · simp [createCheckoutSession, hne, hnorm, hf]
  · simp [createCheckoutSession, hne, hnorm, hf, hv]
  · simp [createCheckoutSession, hne, hnorm, hf, hv]

/-- Witness for C8: an empty store answers NotVerified with no calls. -/
theorem createCheckoutSession_requires_verified_witness :
    createCheckoutSession [] "5551234567" = (CheckoutResult.notVerified, []) :=
  (createCheckoutSession_requires_verified [] "5551234567" "+15551234567"
    (by rfl)).1 rfl

/-- Helper: a rowwise update that preserves the row invariant preserves the
store invariant. -/
theorem storeInvariant_map {s : Store} (f : UserRecord → UserRecord)
    (hf : ∀ u, recordInvariant u → recordInvariant (f u))
    (hinv : storeInvariant s) : storeInvariant (s.map f) := by
  intro u hu
  rcases List.mem_map.mp hu with ⟨v, hv, he⟩
  rw [← he]
  exact hf v (hinv v hv)

/-- Helper: the invariant is preserved under append. -/
theorem storeInvariant_append {s t : Store} (hs : storeInvariant s)
    (ht : storeInvariant t) : storeInvariant (s ++ t) := by
  intro u hu
  rcases List.mem_append.mp hu with h | h
  · exact hs u h
  · exact ht u h

/-- Helper: the provisioning try-block of the part_002 webhook preserves
the store invariant. -/
theorem storeInvariant_runProvisioning (ev : StripeEvent) (raw : String)
    (available : List String) (purchase : String → Except String Purchased)
    (store : Store) (now : Int) (hinv : storeInvariant store) :
    storeInvariant (runProvisioning ev raw available purchase store now).1 := by
  cases hn : normalizePhoneLoose raw with
  | error e =>
    simp only [runProvisioning, hn]
    exact hinv
  | ok p =>
    cases available with
    | nil =>
      simp only [runProvisioning, hn]
      exact hinv
    | cons n rest =>
      simp only [runProvisioning, hn]
      cases hpu : purchase n with
      | error e => exact hinv
      | ok purchased =>
        have hmap : storeInvariant
            (store.map (provisionUpdate ev purchased (now + thirtyDaysMs) now p)) := by
          refine storeInvariant_map _ (fun u hu => ?_) hinv
          unfold provisionUpdate
          by_cases h : (u.phone == p) = true
          · rw [if_pos h]
            intro hv
            exact ⟨(hu hv).1, Or.inr rfl⟩
          · rw [if_neg h]
            exact hu
        by_cases hany : (store.any (fun u => u.phone == p)) = true
        · simp only [hany, if_true]
          exact hmap
        · simp [hany]
          exact hmap

/-- Claim C9 as amended: on the lifecycle schema every modelled operation
preserves the invariant that a verified record has verifiedAt set and
status verified or active: both start-verification upserts (they force
verified false), the /verify update (which sets all three fields), the
last-seen touch, and the whole stripe webhook including its provisioning
update (which moves status to active and does not touch verified or
verifiedAt).  The part_000 snapshot is excluded: its schema has no
verified_at or status column and its /verify sets only the verified flag. -/
theorem lifecycle_ops_preserve_invariant (store : Store) (hinv : storeInvariant store) :
    (∀ n p now, storeInvariant (startVerificationUpsert store n p now)) ∧
    (∀ n p now, storeInvariant (startVerificationUpsertP4 store n p now)) ∧
    (∀ p st now, storeInvariant (checkVerification store p st now).1) ∧
    (∀ p now, storeInvariant (touchLastSeen store p now)) ∧
    (∀ res available purchase now,
      storeInvariant (stripeWebhook res available purchase store now).1) := by
  refine ⟨fun n p now => ?_, fun n p now => ?_, fun p st now => ?_,
    fun p now => ?_, fun res available purchase now => ?_⟩
  · unfold startVerificationUpsert
    by_cases hany : (store.any (fun u => u.phone == p)) = true
    · rw [if_pos hany]
      refine storeInvariant_map _ (fun u hu => ?_) hinv
      by_cases h : (u.phone == p) = true
      · simp [h, pendingUpdate, recordInvariant]
      · simpa [h] using hu
    · rw [if_neg hany]
      refine storeInvariant_append hinv ?_
      intro u hu
      rw [List.mem_singleton.mp hu]
      simp [recordInvariant, defaultRow]
  · unfold startVerificationUpsertP4
    by_cases hany : (store.any (fun u => u.phone == p)) = true
    · rw [if_pos hany]
      refine storeInvariant_map _ (fun u hu => ?_) hinv
      by_cases h : (u.phone == p) = true
      · simp [h, recordInvariant]
      · simpa [h] using hu
    · rw [if_neg hany]
      refine storeInvariant_append hinv ?_
      intro u hu
      rw [List.mem_singleton.mp hu]
      simp [recordInvariant, defaultRow]
  · unfold checkVerification
    by_cases hb : (st == "approved") = true
    · rw [if_pos hb]
      refine storeInvariant_map _ (fun u hu => ?_) hinv
      unfold approveUpdate
      by_cases h : (u.phone == p) = true
      · rw [if_pos h]
        intro _
        exact ⟨by simp, Or.inl rfl⟩
      · rw [if_neg h]
        exact hu
    · rw [if_neg hb]
      exact hinv
  · unfold touchLastSeen
    refine storeInvariant_map _ (fun u hu => ?_) hinv
    by_cases h : (u.phone == p) = true
    · simp only [h, if_true]
      intro hv
      exact hu hv
    · simpa [h] using hu
  · cases res with
    | error msg => exact hinv
    | ok ev =>
      simp only [stripeWebhook]
      by_cases ht : (ev.type == "checkout.session.completed") = true
      · rw [if_pos ht]
        cases hmp : ev.metadataPhone with
        | none => exact hinv
        | some raw =>
          exact storeInvariant_runProvisioning ev raw available purchase store now hinv
      · rw [if_neg ht]
        exact hinv

/-- Witness for C9: the upsert on a one-row invariant store keeps the
invariant. -/
theorem lifecycle_ops_preserve_invariant_witness :
    storeInvariant
      (startVerificationUpsert [defaultRow "+15551234567" 0] (some "Alice")
        "+15551234567" 5) :=
  (lifecycle_ops_preserve_invariant [defaultRow "+15551234567" 0]
    (by decide)).1 (some "Alice") "+15551234567" 5

/-- Counterexample for C9: the part_000 /verify route (cited by the claim)
approves the pending row by setting only the verified flag; read in the
full-schema vocabulary the resulting store violates the invariant, since
the record has verified true with no verifiedAt and no lifecycle status. -/
theorem p0Verify_breaks_invariant :
    (p0Verify [p0Row] "+15551234567" "123456" 500).2 = P0VerifyResult.success ∧
    (p0Verify [p0Row] "+15551234567" "123456" 500).1 =
      [{ p0Row with verified := true }] ∧
    ¬ storeInvariant
        (((p0Verify [p0Row] "+15551234567" "123456" 500).1).map p0ToUser) := by
  refine ⟨rfl, rfl, ?_⟩
  decide
